import Mathlib

/-
Shallow embedding of ommprotocol/io.py (module ommprotocol.io).

Pure and stateful fragments of the Python module are translated into
executable Lean definitions.  External parsers (OpenMM, parmed,
openmoltools) are modelled by taking their parse results as explicit
inputs or by small deterministic stand-ins; the logic of io.py itself
(dispatch, validation, container construction, error raising) is
reproduced faithfully, including its use of CPython semantics for
isinstance, attribute lookup and name resolution.

Errors are modelled with an Except monad over a PyErr type mirroring
the Python exception classes that the module can raise.
-/

/-- Python exception values that the embedded code can raise. -/
inductive PyErr where
  | attributeError (msg : String)
  | typeError (msg : String)
  | valueError (msg : String)
  | notImplementedError (msg : String)
  | nameError (msg : String)
  | indexError (msg : String)
  | ioError (msg : String)
deriving DecidableEq, Repr

/-- Physical units from simtk.unit used by io.py. -/
inductive PhysUnit where
  | angstrom
  | angstromPerPicosecond
  | nanometer
deriving DecidableEq, Repr

/-- An exact decimal number mantissa * 10^(-scale): the numeric values
appearing in the text files handled by io.py are finite decimals, and
keeping them unreduced makes every arithmetic step kernel-computable. -/
structure Dec where
  mantissa : Int
  scale : Nat
deriving DecidableEq, Repr

instance (n : Nat) : OfNat Dec n := ⟨⟨n, 0⟩⟩

/-- The rational value denoted by an exact decimal. -/
def Dec.toRat (d : Dec) : ℚ := d.mantissa / 10 ^ d.scale

/-- A 3-vector of decimal coordinates. -/
abbrev Vec3 := Dec × Dec × Dec

/-- A 3x3 matrix given as three row vectors. -/
abbrev Mat3 := Vec3 × Vec3 × Vec3

/-- An openmm Topology object, identified by the path it was parsed from. -/
structure TopologyData where
  source : String
deriving DecidableEq, Repr

/-- Numeric payload of a simtk.unit.Quantity: a coordinate array or a 3x3 matrix. -/
inductive Payload where
  | array (rows : List Vec3)
  | matrix3 (m : Mat3)
deriving DecidableEq, Repr

/-- A simtk.unit.Quantity: a numeric payload tagged with a unit. -/
structure QuantityData where
  payload : Payload
  unit : PhysUnit
deriving DecidableEq, Repr

/-- Python values that flow into the container fields of io.py. -/
inductive Value where
  | pyNone
  | topology (t : TopologyData)
  | quantity (q : QuantityData)
  | pyInt (n : Int)
  | pyStr (s : String)
deriving DecidableEq, Repr

/-- The Python classes used as second arguments to isinstance in io.py. -/
inductive PyClass where
  | topologyC
  | quantityC
  | intC
  | strC
deriving DecidableEq, Repr

/-- Membership of a value in a class, as CPython isinstance decides it for
a single class argument. -/
def isinstance1 : Value → PyClass → Bool
  | Value.topology _, PyClass.topologyC => true
  | Value.quantity _, PyClass.quantityC => true
  | Value.pyInt _, PyClass.intC => true
  | Value.pyStr _, PyClass.strC => true
  | _, _ => false

/-- An entry of the tuple passed as isinstance's second argument.  io.py
writes the literal None (not type(None)) into these tuples, which is not
a class; CPython rejects it when reached. -/
inductive TypeEntry where
  | cls (c : PyClass)
  | noneLiteral
deriving DecidableEq, Repr

/-- CPython isinstance over a tuple of entries: entries are tried left to
right, returning True at the first match; a non-class entry such as the
literal None raises TypeError when (and only when) it is reached. -/
def isinstanceTuple (v : Value) : List TypeEntry → Except PyErr Bool
  | [] => Except.ok false
  | TypeEntry.cls c :: rest =>
      if isinstance1 v c then Except.ok true else isinstanceTuple v rest
  | TypeEntry.noneLiteral :: _ =>
      Except.error (PyErr.typeError "isinstance() arg 2 must be a type or tuple of types")

/-- Embeds io.py validate: return the object if isinstance accepts it,
else raise TypeError.  An error raised by isinstance itself propagates. -/
def validate (object_ : Value) (type_ : List TypeEntry) : Except PyErr Value :=
  match isinstanceTuple object_ type_ with
  | Except.error e => Except.error e
  | Except.ok true => Except.ok object_
  | Except.ok false => Except.error (PyErr.typeError "must be instance of expected types")

/-- The tuple (Topology, None) used by the topology setter. -/
def topologyOrNone : List TypeEntry := [TypeEntry.cls PyClass.topologyC, TypeEntry.noneLiteral]

/-- The tuple (u.Quantity, None) used by the positions, velocities and box setters. -/
def quantityOrNone : List TypeEntry := [TypeEntry.cls PyClass.quantityC, TypeEntry.noneLiteral]

/-- State of an InputContainer instance: its four validated fields. -/
structure InputContainer where
  topology : Value
  positions : Value
  velocities : Value
  box : Value
deriving DecidableEq, Repr

/-- Embeds the topology setter of InputContainer. -/
def InputContainer.setTopology (v : Value) : Except PyErr Value :=
  validate v topologyOrNone

/-- Embeds the positions setter of InputContainer. -/
def InputContainer.setPositions (v : Value) : Except PyErr Value :=
  validate v quantityOrNone

/-- Embeds the velocities setter of InputContainer. -/
def InputContainer.setVelocities (v : Value) : Except PyErr Value :=
  validate v quantityOrNone

/-- Embeds the box setter of InputContainer. -/
def InputContainer.setBox (v : Value) : Except PyErr Value :=
  validate v quantityOrNone

/-- Embeds InputContainer.__init__: the four setters run in order
(topology, positions, velocities, box), each going through validate;
the first failure propagates as the raised exception. -/
def InputContainer.init (topology positions velocities box : Value) :
    Except PyErr InputContainer := do
  let t ← InputContainer.setTopology topology
  let p ← InputContainer.setPositions positions
  let v ← InputContainer.setVelocities velocities
  let b ← InputContainer.setBox box
  return ⟨t, p, v, b⟩

/-- A ForceField object built from a list of (processed) force-field file names. -/
structure ForceFieldData where
  files : List String
deriving DecidableEq, Repr

/-- System options, passed through as a keyword dictionary. -/
abbrev SystemOptions := List (String × String)

/-- The master handle attached to a SystemHandler: the format-specific
parse object.  The constructors partition masters by which isinstance
test in create_system they satisfy; optional components model the
presence of the dynamically attached attributes (hasattr checks).
pdbFile carries an optional forcefield attribute, charmmPsfFile an
optional parmset attribute. -/
inductive MasterObj where
  | pdbFile (forcefield : Option ForceFieldData)
  | amberPrmtopFile
  | charmmPsfFile (parmset : Option (List String))
  | otherObject
deriving DecidableEq, Repr

/-- State of a SystemHandler instance: the inherited InputContainer
fields plus the master handle and the path keyword. -/
structure SystemHandlerState where
  container : InputContainer
  master : Option MasterObj
  path : Option String
deriving DecidableEq, Repr

/-- Embeds SystemHandler.__init__: InputContainer.__init__ runs first on
the field keywords (raising on validation failure), then master and
path are stored. -/
def SystemHandler.init (master : Option MasterObj)
    (topology positions velocities box : Value) (path : Option String) :
    Except PyErr SystemHandlerState :=
  match InputContainer.init topology positions velocities box with
  | Except.error e => Except.error e
  | Except.ok c => Except.ok ⟨c, master, path⟩

/-- Result of the external createSystem calls made by create_system,
tagged by which master produced it and what was passed along. -/
inductive CreatedSystem where
  | fromPdb (forcefield : ForceFieldData) (topology : Value) (options : SystemOptions)
  | fromPrmtop (options : SystemOptions)
  | fromPsf (parmset : List String) (options : SystemOptions)
deriving DecidableEq, Repr

/-- Embeds SystemHandler.create_system.  A None master raises ValueError;
otherwise the master is tested with isinstance against PDBFile,
AmberPrmtopFile and CharmmPsfFile in that order, checking hasattr for
the attached forcefield or parmset; a master matching none of the three
classes falls through every branch and the method returns None. -/
def SystemHandler.create_system (master : Option MasterObj) (topology : Value)
    (system_options : Option SystemOptions) : Except PyErr (Option CreatedSystem) :=
  match master with
  | Option.none =>
      Except.error (PyErr.valueError "This instance is not able to create systems.")
  | Option.some m =>
      let opts := system_options.getD []
      match m with
      | MasterObj.pdbFile ff =>
          match ff with
          | Option.none =>
              Except.error (PyErr.valueError
                "PDB topology files must be instanciated with forcefield paths.")
          | Option.some f => Except.ok (Option.some (CreatedSystem.fromPdb f topology opts))
      | MasterObj.amberPrmtopFile => Except.ok (Option.some (CreatedSystem.fromPrmtop opts))
      | MasterObj.charmmPsfFile ps =>
          match ps with
          | Option.none =>
              Except.error (PyErr.valueError
                "PSF topology files must be instanciated with Charmm parameters.")
          | Option.some p => Except.ok (Option.some (CreatedSystem.fromPsf p opts))
      | MasterObj.otherObject => Except.ok Option.none

/-- Modelled from the spec: ommprotocol.FORCEFIELDS, the documented default
force-field file list defined in the ommprotocol module, which is not part
of this file; the spec fixes its role (default used when none supplied)
but not its entries. -/
def FORCEFIELDS : List String := ["default-forcefield.xml", "default-water.xml"]

/-- Stand-in for openmoltools.utils.create_ffxml_file (external): converts a
frcmod file to an ffxml file and returns the new file name. -/
def create_ffxml_file (frcmod : String) : String := "ffxml-converted-" ++ frcmod

/-- Embeds str.endswith on the character lists of the strings. -/
def pyEndsWith (s post : String) : Bool := post.toList.isSuffixOf s.toList

/-- Embeds str.startswith on the character lists of the strings. -/
def pyStartsWith (s pre : String) : Bool := pre.toList.isPrefixOf s.toList

/-- Embeds process_forcefield: every filename ending in .frcmod is
converted with create_ffxml_file, every other filename is yielded
unchanged. -/
def process_forcefield (forcefields : List String) : List String :=
  forcefields.map (fun forcefield =>
    if pyEndsWith forcefield ".frcmod" then create_ffxml_file forcefield else forcefield)

/-- Parse result of openmm's PDBFile (external): the path, the positions
quantity, and the optional unit-cell dimensions returned by
topology.getUnitCellDimensions().  PDBFile objects define no velocities
attribute, so getattr(pdb, velocities-name, None) in from_pdb always
yields None. -/
structure PdbData where
  path : String
  positionsQ : QuantityData
  unitCellDimensions : Option QuantityData
deriving DecidableEq, Repr

/-- Embeds SystemHandler.from_pdb on a parsed PDB file: box and positions
are read from the parse object, velocities via getattr default None, a
missing or empty forcefields argument falls back to FORCEFIELDS, the
file list is processed with process_forcefield and attached to the
master as its forcefield attribute, and the class is instantiated with
master, topology, positions, velocities, box and path. -/
def SystemHandler.from_pdb (pdb : PdbData) (forcefields : Option (List String)) :
    Except PyErr SystemHandlerState :=
  let box : Value :=
    match pdb.unitCellDimensions with
    | Option.some q => Value.quantity q
    | Option.none => Value.pyNone
  let positions : Value := Value.quantity pdb.positionsQ
  let velocities : Value := Value.pyNone
  let ffs : List String :=
    match forcefields with
    | Option.none => FORCEFIELDS
    | Option.some [] => FORCEFIELDS
    | Option.some l => l
  let master : MasterObj := MasterObj.pdbFile (Option.some ⟨process_forcefield ffs⟩)
  SystemHandler.init (Option.some master) (Value.topology ⟨pdb.path⟩)
    positions velocities box (Option.some pdb.path)

/-- Embeds SystemHandler.from_prmtop on a parsed prmtop file: the class is
instantiated with the master and its topology only. -/
def SystemHandler.from_prmtop (path : String) : Except PyErr SystemHandlerState :=
  SystemHandler.init (Option.some MasterObj.amberPrmtopFile) (Value.topology ⟨path⟩)
    Value.pyNone Value.pyNone Value.pyNone (Option.some path)

/-- Embeds SystemHandler.from_psf: the PSF file is parsed first; a None
charmm_parameters raises ValueError; otherwise the parameter set is
built from the given files, attached to the master as its parmset, and
the class is instantiated with master, topology and path (positions,
velocities and box keywords defaulting to None). -/
def SystemHandler.from_psf (path : String) (charmm_parameters : Option (List String)) :
    Except PyErr SystemHandlerState :=
  match charmm_parameters with
  | Option.none =>
      Except.error (PyErr.valueError "ERROR: PSF files require charmm_parameters")
  | Option.some params =>
      let master : MasterObj := MasterObj.charmmPsfFile (Option.some params)
      SystemHandler.init (Option.some master) (Value.topology ⟨path⟩)
        Value.pyNone Value.pyNone Value.pyNone (Option.some path)

/-- Parse result of parmed.load_file on a restart file (external): the
first coordinate frame, the presence flags hasvels and hasbox, the first
velocity frame (meaningful only when hasvels) and the three cell lengths
(meaningful only when hasbox). -/
structure RstData where
  coordinatesFrame0 : List Vec3
  hasvels : Bool
  velocitiesFrame0 : List Vec3
  cellLengths : Vec3
  hasbox : Bool
deriving DecidableEq, Repr

/-- Embeds Restart.from_rst: positions are always extracted in angstrom;
velocities only when the hasvels flag is set; the box, when the hasbox
flag is set, is the diagonal matrix of the three cell lengths in
angstrom; the class is then instantiated with positions, velocities and
box keywords (topology defaulting to None), running
InputContainer.__init__. -/
def Restart.from_rst (rst : RstData) : Except PyErr InputContainer :=
  let positions : Value := Value.quantity ⟨Payload.array rst.coordinatesFrame0, PhysUnit.angstrom⟩
  let velocities : Value :=
    if rst.hasvels then
      Value.quantity ⟨Payload.array rst.velocitiesFrame0, PhysUnit.angstromPerPicosecond⟩
    else Value.pyNone
  let box : Value :=
    if rst.hasbox then
      Value.quantity ⟨Payload.matrix3
        ((rst.cellLengths.1, 0, 0),
         (0, rst.cellLengths.2.1, 0),
         (0, 0, rst.cellLengths.2.2)), PhysUnit.angstrom⟩
    else Value.pyNone
  InputContainer.init Value.pyNone positions velocities box

/-- Index of the last occurrence of a character in a list, as Python rfind
(None standing for -1/absent). -/
def rfindIdx (cs : List Char) (c : Char) : Option Nat :=
  ((cs.enum.filter (fun p => p.2 == c)).getLast?).map (fun p => p.1)

/-- Embeds os.path.splitext for posix paths: split at the last dot that
comes after the last slash, unless every character of the basename up to
that dot is itself a dot (leading-dot filenames keep their dots). -/
def splitext (p : String) : String × String :=
  let cs := p.toList
  match rfindIdx cs '.' with
  | Option.none => (p, "")
  | Option.some d =>
      let fi : Nat :=
        match rfindIdx cs '/' with
        | Option.none => 0
        | Option.some s => s + 1
      if d < fi then (p, "")
      else if ((cs.drop fi).take (d - fi)).any (fun c => !(c == '.')) then
        (String.mk (cs.take d), String.mk (cs.drop d))
      else (p, "")

/-- Embeds str.lstrip(chars): drop leading characters belonging to chars. -/
def pyLstrip (self : String) (chars : String) : String :=
  String.mk (self.toList.dropWhile (fun c => chars.toList.contains c))

/-- Embeds str.rstrip(chars): drop trailing characters belonging to chars. -/
def pyRstrip (self : String) (chars : String) : String :=
  String.mk ((self.toList.reverse.dropWhile (fun c => chars.toList.contains c)).reverse)

/-- Embeds str.strip(chars): drop leading and trailing characters belonging
to chars. -/
def pyStrip (self : String) (chars : String) : String :=
  pyRstrip (pyLstrip self chars) chars

/-- Call semantics for the str methods of the strip family, keyed by
method name.  Python's str type has methods lstrip, rstrip and strip but
no method named lsplit, so an attribute lookup of a name outside this
family — in particular of lsplit, the one name io.py looks up
dynamically — fails with AttributeError. -/
def strMethodTable : List (String × (String → String → String)) :=
  [("lstrip", pyLstrip), ("rstrip", pyRstrip), ("strip", pyStrip)]

/-- Attribute lookup of a strip-family method on a str object. -/
def strLookup (attr : String) : Option (String → String → String) :=
  (strMethodTable.find? (fun e => e.1 == attr)).map (fun e => e.2)

/-- Embeds MultiFormatLoader.load, generic over the family's _loaders
table.  The extension is split off the path, then the code evaluates
ext.lsplit(dot-string): an attribute lookup of lsplit on str, which
fails with AttributeError; the surrounding try only catches KeyError
(mapped to NotImplementedError) and IOError (re-raised with the path),
so the AttributeError propagates.  Had the lookup succeeded, the
stripped extension would be looked up in the table and the matched
handler invoked with the path. -/
def MultiFormatLoader.load {α : Type} (loaders : String → Option (String → Except PyErr α))
    (path : String) : Except PyErr α :=
  let ext := (splitext path).2
  match strLookup "lsplit" with
  | Option.none => Except.error (PyErr.attributeError "str object has no attribute lsplit")
  | Option.some m =>
      match loaders (m ext ".") with
      | Option.none =>
          Except.error (PyErr.notImplementedError ("Unknown loader for format " ++ ext))
      | Option.some handler =>
          match handler path with
          | Except.error (PyErr.ioError _) =>
              Except.error (PyErr.ioError ("Could not access file " ++ path))
          | r => r

/-- Whitespace test for str.split(). -/
def isPyWhitespace (c : Char) : Bool :=
  c == ' ' || c == '\t' || c == '\n' || c == '\r'

/-- Accumulator pass over the characters for str.split(): acc holds the
current token reversed; whitespace closes the token if non-empty. -/
def pySplitAux : List Char → List Char → List String
  | [], acc => if acc.isEmpty then [] else [String.mk acc.reverse]
  | c :: cs, acc =>
      if isPyWhitespace c then
        if acc.isEmpty then pySplitAux cs []
        else String.mk acc.reverse :: pySplitAux cs []
      else pySplitAux cs (c :: acc)

/-- Embeds str.split() with no argument: split on runs of whitespace,
discarding empty pieces. -/
def pySplit (s : String) : List String := pySplitAux s.toList []

/-- Numeric value of a digit list, most significant first. -/
def digitsNat (cs : List Char) : Nat :=
  cs.foldl (fun a c => a * 10 + (c.toNat - 48)) 0

/-- Parses an unsigned decimal literal: digits, optionally followed by a
dot and more digits, with at least one digit present. -/
def parseUnsignedFloat (cs : List Char) : Option Dec :=
  let intPart := cs.takeWhile (fun c => c.isDigit)
  let rest := cs.dropWhile (fun c => c.isDigit)
  match rest with
  | [] =>
      if intPart.isEmpty then Option.none
      else Option.some ⟨digitsNat intPart, 0⟩
  | '.' :: frac =>
      if frac.all (fun c => c.isDigit) && !(intPart.isEmpty && frac.isEmpty) then
        Option.some ⟨digitsNat intPart * 10 ^ frac.length + digitsNat frac, frac.length⟩
      else Option.none
  | _ => Option.none

/-- Embeds float(str) on the plain decimal literals that appear in XSC
records: an optional sign followed by an unsigned decimal literal
(exponent and inf/nan forms do not occur in these files and are not
modelled). -/
def parseFloat (s : String) : Option Dec :=
  match s.toList with
  | '+' :: rest => parseUnsignedFloat rest
  | '-' :: rest => (parseUnsignedFloat rest).map (fun d => ⟨-d.mantissa, d.scale⟩)
  | cs => parseUnsignedFloat cs

/-- Python identifier test: a letter or underscore followed by letters,
digits or underscores. -/
def isPyIdent (s : String) : Bool :=
  match s.toList with
  | [] => false
  | c :: rest => (c.isAlpha || c == '_') && rest.all (fun d => d.isAlphanum || d == '_')

/-- The Python keywords, rejected as namedtuple field names. -/
def pyKeywords : List String :=
  ["False", "None", "True", "and", "as", "assert", "async", "await", "break",
   "class", "continue", "def", "del", "elif", "else", "except", "finally",
   "for", "from", "global", "if", "import", "in", "is", "lambda", "nonlocal",
   "not", "or", "pass", "raise", "return", "try", "while", "with", "yield"]

/-- A namedtuple field name must be an identifier, must not start with an
underscore and must not be a keyword. -/
def validFieldName (s : String) : Bool :=
  isPyIdent s && !(pyStartsWith s "_") && !(pyKeywords.contains s)

/-- Boolean no-duplicates test on a list of strings. -/
def listNodupB : List String → Bool
  | [] => true
  | x :: xs => !(xs.contains x) && listNodupB xs

/-- Attribute access on the parsed namedtuple: the value bound to a field
name, fields and values being zipped positionally. -/
def fieldLookup (fields : List String) (vals : List Dec) (name : String) : Option Dec :=
  match fields.findIdx? (fun f => f == name) with
  | Option.none => Option.none
  | Option.some i => vals.get? i

/-- Embeds BoxVectors.from_xsc on the list of lines of the file: a
namedtuple type is created from the tokens of line 1 minus its first
token (IndexError when that line is missing, ValueError on invalid or
duplicate field names), instantiated with the float values of the tokens
of line 2 (IndexError when missing, ValueError on a bad float, TypeError
on an arity mismatch), and the result is the diagonal matrix of the
fields a_x, b_y, c_z in angstrom, looked up in that order with
AttributeError when one is absent. -/
def BoxVectors.from_xsc (lines : List String) : Except PyErr QuantityData :=
  match lines.get? 1 with
  | Option.none => Except.error (PyErr.indexError "list index out of range")
  | Option.some headerLine =>
      let fields := (pySplit headerLine).drop 1
      if fields.all validFieldName && listNodupB fields then
        match lines.get? 2 with
        | Option.none => Except.error (PyErr.indexError "list index out of range")
        | Option.some valueLine =>
            match (pySplit valueLine).mapM parseFloat with
            | Option.none => Except.error (PyErr.valueError "could not convert string to float")
            | Option.some vals =>
                if fields.length == vals.length then
                  match fieldLookup fields vals "a_x" with
                  | Option.none => Except.error (PyErr.attributeError "a_x")
                  | Option.some ax =>
                      match fieldLookup fields vals "b_y" with
                      | Option.none => Except.error (PyErr.attributeError "b_y")
                      | Option.some b0 =>
                          match fieldLookup fields vals "c_z" with
                          | Option.none => Except.error (PyErr.attributeError "c_z")
                          | Option.some c0 =>
                              Except.ok ⟨Payload.matrix3
                                ((ax, 0, 0), (0, b0, 0), (0, 0, c0)), PhysUnit.angstrom⟩
                else Except.error (PyErr.typeError "NamedXsc arity mismatch")
      else Except.error (PyErr.valueError "invalid namedtuple field names")

/-- The n-th name tried by assert_not_exists: the original path first,
then name.i.ext for i = 1, 2, ... with name and ext split from the
original path. -/
def candidateName (name ext path : String) : Nat → String
  | 0 => path
  | i + 1 => name ++ "." ++ toString (i + 1) ++ ext

/-- The while loop of assert_not_exists, with explicit fuel: while the
current path exists, replace it by name.i.ext and increment i. -/
def assertNotExistsLoop (pathExists : String → Bool) (name ext : String) :
    String → Nat → Nat → String
  | path, _, 0 => path
  | path, i, fuel + 1 =>
      if pathExists path then
        assertNotExistsLoop pathExists name ext (name ++ "." ++ toString i ++ ext) (i + 1) fuel
      else path

/-- Embeds assert_not_exists over a filesystem given as an existence
predicate: name and ext are split from the original path once, then the
while loop runs (with fuel standing in for the unbounded Python loop).
The Lean name drops the underscores of the Python name because Mathlib
reserves that spelling as a command. -/
def assertNotExists (pathExists : String → Bool) (fuel : Nat) (path : String) : String :=
  let ne := splitext path
  assertNotExistsLoop pathExists ne.1 ne.2 path 1 fuel

/-- The names bound at module level in ommprotocol/io.py: its imports and
its top-level classes and functions.  Neither choice nor ascii_letters
is among them. -/
def moduleGlobalNames : List String :=
  ["os", "sys", "namedtuple", "ArgumentParser", "u", "Topology", "PDBFile",
   "ForceField", "AmberPrmtopFile", "AmberInpcrdFile", "CharmmPsfFile",
   "CharmmParameterSet", "XmlSerializer", "NamdBinCoor", "NamdBinVel",
   "parmed_load_file", "create_ffxml_file", "yaml", "ommprotocol",
   "YamlLoader", "MultiFormatLoader", "InputContainer", "SystemHandler",
   "Positions", "Velocities", "BoxVectors", "Restart", "parse_arguments",
   "assert_not_exists", "process_forcefield", "validate", "random_string"]

/-- Python builtin names relevant to name resolution in this module;
choice and ascii_letters are not builtins. -/
def builtinNames : List String :=
  ["abs", "all", "any", "bool", "bytes", "chr", "dict", "dir", "enumerate",
   "filter", "float", "format", "getattr", "hasattr", "hash", "id", "int",
   "isinstance", "issubclass", "iter", "len", "list", "map", "max", "min",
   "next", "object", "open", "ord", "print", "range", "repr", "reversed",
   "round", "set", "sorted", "str", "sum", "tuple", "type", "zip"]

/-- Name resolution for a global reference inside random_string: module
globals first, then builtins. -/
def resolveGlobalName (n : String) : Bool :=
  moduleGlobalNames.contains n || builtinNames.contains n

/-- One execution of the generator body choice(ascii_letters) inside
random_string: the names choice and ascii_letters are resolved at each
iteration; an unresolved name raises NameError.  The success branch is
a placeholder character standing for the external random choice; it is
unreachable because the module never binds choice. -/
def randomStringStep : Except PyErr Char :=
  if resolveGlobalName "choice" then
    if resolveGlobalName "ascii_letters" then
      Except.ok 'a'
    else Except.error (PyErr.nameError "name ascii_letters is not defined")
  else Except.error (PyErr.nameError "name choice is not defined")

/-- Embeds random_string: join the characters produced by evaluating the
generator body once per element of range(length); range of a
non-positive length is empty, so the body — and its name resolution —
never runs and the join of no pieces is the empty string. -/
def random_string (length : Int) : Except PyErr String :=
  match (List.replicate length.toNat ()).mapM (fun _ => randomStringStep) with
  | Except.error e => Except.error e
  | Except.ok cs => Except.ok (String.mk cs)



/-
Theorems.  Each claim's theorem is stated over the embedded definitions
above; helper lemmas precede the claim theorems that use them.
-/

/-- C1: the code of MultiFormatLoader.load evaluates ext.lsplit, an
attribute that the str type does not have, before any table lookup; the
resulting AttributeError is not caught by the except clauses (which
catch only KeyError and IOError), so for every loader family and every
path the call raises AttributeError instead of dispatching to a handler
or raising NotImplementedError for unsupported extensions. -/
theorem MultiFormatLoader_load_always_attributeError {α : Type}
    (loaders : String → Option (String → Except PyErr α)) (path : String) :
    MultiFormatLoader.load loaders path
      = Except.error (PyErr.attributeError "str object has no attribute lsplit") := rfl

/-- C2: constructing a bare InputContainer (all four field keywords left
at their default None) raises TypeError from isinstance, because
validate passes the literal None inside the isinstance type tuple;
assigning None to a field therefore does not succeed, contrary to the
claim. -/
theorem InputContainer_init_defaults_typeError :
    InputContainer.init Value.pyNone Value.pyNone Value.pyNone Value.pyNone
      = Except.error (PyErr.typeError "isinstance() arg 2 must be a type or tuple of types") := rfl

/-- C3: create_system raises ValueError when the master handle is None,
when the master is a PDBFile without a forcefield attribute, and when
the master is a CharmmPsfFile without an attached parmset. -/
theorem create_system_requires_master_and_context (topology : Value)
    (opts : Option SystemOptions) :
    SystemHandler.create_system Option.none topology opts
        = Except.error (PyErr.valueError "This instance is not able to create systems.")
    ∧ SystemHandler.create_system (Option.some (MasterObj.pdbFile Option.none)) topology opts
        = Except.error (PyErr.valueError
            "PDB topology files must be instanciated with forcefield paths.")
    ∧ SystemHandler.create_system (Option.some (MasterObj.charmmPsfFile Option.none)) topology opts
        = Except.error (PyErr.valueError
            "PSF topology files must be instanciated with Charmm parameters.") :=
  ⟨rfl, rfl, rfl⟩

/-- C3 witness: the three error branches of create_system evaluated at a
concrete topology value and concrete (absent) options. -/
theorem create_system_requires_master_and_context_example :
    SystemHandler.create_system Option.none Value.pyNone Option.none
        = Except.error (PyErr.valueError "This instance is not able to create systems.")
    ∧ SystemHandler.create_system (Option.some (MasterObj.pdbFile Option.none)) Value.pyNone
        Option.none
        = Except.error (PyErr.valueError
            "PDB topology files must be instanciated with forcefield paths.")
    ∧ SystemHandler.create_system (Option.some (MasterObj.charmmPsfFile Option.none)) Value.pyNone
        Option.none
        = Except.error (PyErr.valueError
            "PSF topology files must be instanciated with Charmm parameters.") :=
  create_system_requires_master_and_context Value.pyNone Option.none

/-- C4: loading a restart whose hasvels and hasbox flags are both false
does not return a container with those fields None: the container
construction itself raises TypeError, because InputContainer.__init__
assigns the default None to topology and validate rejects it through
the isinstance None-in-tuple slip. -/
theorem Restart_from_rst_no_flags_typeError :
    Restart.from_rst ⟨[(1, 2, 3)], false, [], (0, 0, 0), false⟩
      = Except.error (PyErr.typeError "isinstance() arg 2 must be a type or tuple of types") := rfl

/-- C6: from_psf with charmm_parameters absent raises the missing
required argument ValueError; with parameter files supplied it does not
return a container either — the container construction raises TypeError
through the isinstance None-in-tuple slip when the default None
positions keyword is validated. -/
theorem SystemHandler_from_psf_parameters :
    SystemHandler.from_psf "x.psf" Option.none
        = Except.error (PyErr.valueError "ERROR: PSF files require charmm_parameters")
    ∧ SystemHandler.from_psf "x.psf" (Option.some ["par.prm"])
        = Except.error (PyErr.typeError "isinstance() arg 2 must be a type or tuple of types") :=
  ⟨rfl, rfl⟩

/-- C7: process_forcefield does convert .frcmod entries and pass the
rest through, but from_pdb invoked without forcefields does raise: after
falling back to the default list, the container construction raises
TypeError when the always-None velocities value is validated through
the isinstance None-in-tuple slip. -/
theorem SystemHandler_from_pdb_default_raises :
    process_forcefield ["gaff.frcmod", "amber.xml"]
        = ["ffxml-converted-gaff.frcmod", "amber.xml"]
    ∧ SystemHandler.from_pdb
        ⟨"model.pdb", ⟨Payload.array [(1, 2, 3)], PhysUnit.nanometer⟩, Option.none⟩ Option.none
        = Except.error (PyErr.typeError "isinstance() arg 2 must be a type or tuple of types") :=
  ⟨by decide, rfl⟩

/-- C10: a non-None master that is not a PDBFile, AmberPrmtopFile or
CharmmPsfFile falls through every isinstance branch of create_system,
which silently returns None. -/
theorem create_system_unknown_master_returns_none (topology : Value)
    (opts : Option SystemOptions) :
    SystemHandler.create_system (Option.some MasterObj.otherObject) topology opts
      = Except.ok Option.none := rfl

/-- C1 witness: the load entry point of the SystemHandler family, given
its psf handler under the psf key, still raises AttributeError on a
supported path. -/
theorem MultiFormatLoader_load_attributeError_example :
    MultiFormatLoader.load
        (fun ext =>
          if ext == "psf" then
            Option.some (fun p => SystemHandler.from_psf p Option.none)
          else Option.none)
        "input.psf"
      = Except.error (PyErr.attributeError "str object has no attribute lsplit") :=
  MultiFormatLoader_load_always_attributeError
    (fun ext =>
      if ext == "psf" then
        Option.some (fun p => SystemHandler.from_psf p Option.none)
      else Option.none)
    "input.psf"

/-- C10 witness: create_system on an unrecognized non-None master,
evaluated at a concrete topology value and absent options. -/
theorem create_system_unknown_master_example :
    SystemHandler.create_system (Option.some MasterObj.otherObject) Value.pyNone Option.none
      = Except.ok Option.none :=
  create_system_unknown_master_returns_none Value.pyNone Option.none

/-- C5: from_xsc on a file whose line at index 1 names the fields (first
token dropped) and whose line at index 2 carries the numeric values
returns the diagonal matrix of the fields a_x, b_y, c_z in angstrom,
with zero off-diagonal entries, the fields being bound to the values
positionally. -/
theorem BoxVectors_from_xsc_diagonal (l0 headerLine valueLine : String) (rest : List String)
    (vals : List Dec) (ax b0 c0 : Dec)
    (hvalid : ((pySplit headerLine).drop 1).all validFieldName = true)
    (hnodup : listNodupB ((pySplit headerLine).drop 1) = true)
    (hvals : (pySplit valueLine).mapM parseFloat = Option.some vals)
    (hlen : ((pySplit headerLine).drop 1).length = vals.length)
    (ha : fieldLookup ((pySplit headerLine).drop 1) vals "a_x" = Option.some ax)
    (hb : fieldLookup ((pySplit headerLine).drop 1) vals "b_y" = Option.some b0)
    (hc : fieldLookup ((pySplit headerLine).drop 1) vals "c_z" = Option.some c0) :
    BoxVectors.from_xsc (l0 :: headerLine :: valueLine :: rest)
      = Except.ok ⟨Payload.matrix3 ((ax, 0, 0), (0, b0, 0), (0, 0, c0)), PhysUnit.angstrom⟩ := by
  unfold BoxVectors.from_xsc
  simp only [List.get?, hvalid, hnodup, Bool.and_self, if_true, hvals, hlen, beq_self_eq_true,
    ha, hb, hc]

/-- C5 witness: a record binding fields step, a_x, b_y, c_z to the value
line 0 10.0 20.0 30.0 yields the diagonal matrix of the decimals 10.0,
20.0, 30.0 (mantissa over power of ten) in angstrom. -/
theorem BoxVectors_from_xsc_example :
    BoxVectors.from_xsc
        ["# NAMD extended system configuration",
         "#$LABELS step a_x b_y c_z",
         "0 10.0 20.0 30.0"]
      = Except.ok ⟨Payload.matrix3
          ((Dec.mk 100 1, 0, 0), (0, Dec.mk 200 1, 0), (0, 0, Dec.mk 300 1)),
          PhysUnit.angstrom⟩ :=
  BoxVectors_from_xsc_diagonal "# NAMD extended system configuration"
    "#$LABELS step a_x b_y c_z" "0 10.0 20.0 30.0" []
    [Dec.mk 0 0, Dec.mk 100 1, Dec.mk 200 1, Dec.mk 300 1]
    (Dec.mk 100 1) (Dec.mk 200 1) (Dec.mk 300 1)
    (by decide) (by decide) (by decide) (by decide) (by decide) (by decide) (by decide)

/-- Reading of the decimals in the C5 matrix: mantissa 100 over one power
of ten is the rational 10, and likewise for 20 and 30. -/
theorem dec_values_of_xsc_example :
    (Dec.mk 100 1).toRat = 10 ∧ (Dec.mk 200 1).toRat = 20 ∧ (Dec.mk 300 1).toRat = 30 := by
  refine ⟨?_, ?_, ?_⟩ <;> norm_num [Dec.toRat]

/-- Helper for C8: if the names tried from index j onwards are occupied for
t steps and free at step t, the while loop of assert_not_exists, entered
with the j-th candidate and counter j + 1, returns the (j + t)-th
candidate, provided the fuel covers the t steps. -/
theorem assertNotExistsLoop_first_free (pathExists : String → Bool) (name ext path : String)
    (t : Nat) :
    ∀ (j fuel : Nat), t ≤ fuel →
      (∀ m, m < t → pathExists (candidateName name ext path (j + m)) = true) →
      pathExists (candidateName name ext path (j + t)) = false →
      assertNotExistsLoop pathExists name ext (candidateName name ext path j) (j + 1) fuel
        = candidateName name ext path (j + t) := by
  induction t with
  | zero =>
      intro j fuel _ _ hfree
      cases fuel with
      | zero => simp [assertNotExistsLoop]
      | succ f =>
          simp only [Nat.add_zero] at hfree
          simp [assertNotExistsLoop, hfree]
  | succ t ih =>
      intro j fuel hle hbusy hfree
      cases fuel with
      | zero => exact absurd hle (by omega)
      | succ f =>
          have hj : pathExists (candidateName name ext path j) = true := by
            have h0 := hbusy 0 (by omega)
            simpa using h0
          have hstep : (name ++ "." ++ toString (j + 1) ++ ext)
              = candidateName name ext path (j + 1) := rfl
          have hrec := ih (j + 1) f (by omega)
            (by
              intro m hm
              have hb := hbusy (m + 1) (by omega)
              have harg : j + 1 + m = j + (m + 1) := by omega
              rw [harg]
              exact hb)
            (by
              have harg : j + 1 + t = j + (t + 1) := by omega
              rw [harg]
              exact hfree)
          calc assertNotExistsLoop pathExists name ext (candidateName name ext path j)
                (j + 1) (f + 1)
              = assertNotExistsLoop pathExists name ext
                  (name ++ "." ++ toString (j + 1) ++ ext) (j + 1 + 1) f := by
                simp [assertNotExistsLoop, hj]
            _ = candidateName name ext path (j + (t + 1)) := by
                rw [hstep]
                have harg : j + (t + 1) = j + 1 + t := by omega
                rw [harg]
                exact hrec

/-- C8: assert_not_exists returns the first name of the sequence path,
name.1.ext, name.2.ext, ... (name and ext split from the original path)
that does not exist, when the first free index lies within the fuel
bound standing in for the unbounded Python while loop. -/
theorem assertNotExists_first_free (pathExists : String → Bool) (path : String) (t fuel : Nat)
    (hle : t ≤ fuel)
    (hbusy : ∀ m, m < t →
      pathExists (candidateName (splitext path).1 (splitext path).2 path m) = true)
    (hfree : pathExists (candidateName (splitext path).1 (splitext path).2 path t) = false) :
    assertNotExists pathExists fuel path
      = candidateName (splitext path).1 (splitext path).2 path t := by
  have h := assertNotExistsLoop_first_free pathExists (splitext path).1 (splitext path).2 path t
    0 fuel hle (by intro m hm; simpa using hbusy m hm) (by simpa using hfree)
  simpa [assertNotExists, candidateName] using h

/-- C8 witness: with file.txt and file.1.txt existing, the returned name
is file.2.txt, the first free integer suffix. -/
theorem assertNotExists_example :
    assertNotExists (fun s => ["file.txt", "file.1.txt"].contains s) 10 "file.txt"
      = "file.2.txt" := by
  have h := assertNotExists_first_free (fun s => ["file.txt", "file.1.txt"].contains s)
    "file.txt" 2 10 (by decide) (by decide) (by decide)
  exact h.trans (by decide)

/-- C9 counterexample: random_string called with length 0 returns the
empty string instead of raising NameError, because range(0) is empty and
the generator body that would resolve the unbound name choice never
runs. -/
theorem random_string_zero_returns_empty : random_string 0 = Except.ok "" := rfl

/-- C9 amended: for every length of at least 1, random_string raises
NameError, because the generator body resolves the name choice, which is
bound neither in the module globals nor among the builtins. -/
theorem random_string_positive_nameError (n : Int) (h : 1 ≤ n) :
    random_string n = Except.error (PyErr.nameError "name choice is not defined") := by
  obtain ⟨m, hm⟩ : ∃ m, n.toNat = m + 1 := ⟨n.toNat - 1, by omega⟩
  unfold random_string
  rw [hm]
  rfl

/-- C9 witness: at the default length 5 the call raises NameError. -/
theorem random_string_positive_example :
    random_string 5 = Except.error (PyErr.nameError "name choice is not defined") :=
  random_string_positive_nameError 5 (by decide)
